import Mathlib

/-!
Shallow embedding of the OttoBOT servo controller (`src/main.ino`, the
LittleFS-based sketch: the second of the two concatenated sketch versions in
the file, which is the one `loop()` at the end of the file drives).

State that the C++ sketch keeps in global arrays is collected in `SState`;
each mutating function of the sketch becomes a Lean function `SState → SState`
(with the millisecond clock `millis()` passed in explicitly as a `Nat`
parameter where the sketch reads it).  The 32-bit unsigned arithmetic of
`unsigned long` timestamps is made explicit with `% 2^32`.
-/

set_option maxRecDepth 20000

namespace OttoBot

/-- `clampInt` from the sketch. -/
def clampInt (value minVal maxVal : Int) : Int :=
  if value < minVal then minVal
  else if value > maxVal then maxVal
  else value

/-- `SERVO_MIN_US` : pulse width at power -100. -/
def SERVO_MIN_US : Int := 1000

/-- `SERVO_MAX_US` : pulse width at power +100. -/
def SERVO_MAX_US : Int := 2000

/-- `MAX_SEQ_STEPS` : hard cap on the sequence step buffer. -/
def MAX_SEQ_STEPS : Nat := 256

/-- The allowed GPIO list `GPIO_OPTIONS`. -/
def GPIO_OPTIONS : List Nat :=
  [2, 4, 5, 12, 13, 14, 15, 16, 17, 18, 19, 21, 22, 23, 25, 26, 27, 32, 33]

/-- `isValidGpio` from the sketch. -/
def isValidGpio (gpio : Nat) : Bool := GPIO_OPTIONS.contains gpio

/-- Arduino's integer `map(x, inMin, inMax, outMin, outMax)` (long arithmetic,
C truncating division; every use here has nonnegative numerator). -/
def arduinoMap (x inMin inMax outMin outMax : Int) : Int :=
  Int.tdiv ((x - inMin) * (outMax - outMin)) (inMax - inMin) + outMin

/-- `powerToPulse` from the sketch: clamp to [-100,100], then map linearly to
`[SERVO_MIN_US, SERVO_MAX_US]`. -/
def powerToPulse (power : Int) : Int :=
  arduinoMap (clampInt power (-100) 100) (-100) 100 SERVO_MIN_US SERVO_MAX_US

/-- `SeqStep` from the sketch (`servo` is a `uint8_t`, `power` an `int16_t`
already clamped to [-100,100], `durationMs` a `uint32_t` clamped to
[0,30000] when the step is committed). -/
structure SeqStep where
  servo : Nat
  power : Int
  durationMs : Nat
deriving DecidableEq

/-- 2^32 : the modulus of `unsigned long` arithmetic on the ESP32. -/
def U32MOD : Nat := 4294967296

/-- Reduction of a timestamp to its 32-bit unsigned value. -/
def u32 (n : Nat) : Nat := n % U32MOD

/-- The sketch's wraparound-safe elapsed test `(long)(now - endTime) >= 0`:
the 32-bit difference, viewed as a signed 32-bit value, is nonnegative. -/
def elapsed32 (now endTime : Nat) : Bool :=
  decide ((now % U32MOD + U32MOD - endTime % U32MOD) % U32MOD < 2147483648)

/-- The global mutable state of the sketch that the scheduler claims are
about: per-servo logical state (`currentPower`, `servoAttached`, the last
pulse width written to the driver), configuration (`SERVO_PINS`,
calibration), the pulse scheduler arrays, and the sequence engine state.
`seqSteps` models the committed prefix `seqSteps[0..seqStepCount)` of the
fixed step array, so `seqSteps.length` plays the role of `seqStepCount`. -/
@[ext]
structure SState where
  currentPower : Fin 6 → Int
  servoAttached : Fin 6 → Bool
  lastPulseUs : Fin 6 → Int
  servoPins : Fin 6 → Nat
  servoFullTurnMs : Fin 6 → Int
  servoCurrentDeg : Fin 6 → Int
  servoCenterDeg : Fin 6 → Int
  servoPulseActive : Fin 6 → Bool
  servoPulseEndTime : Fin 6 → Nat
  seqSteps : List SeqStep
  seqStepIndex : Nat
  seqRunning : Bool
  seqStepActive : Bool
  seqStepEndTime : Nat

/-- The state right after `setup()` with no stored configuration:
`setupServos` zeroes `currentPower` and clears `servoAttached`,
`loadOrInitConfig` installs the calibration defaults (`fullTurnMs = 1000`),
and the scheduler/sequence globals start zero-initialised. -/
def initialState : SState where
  currentPower := fun _ => 0
  servoAttached := fun _ => false
  lastPulseUs := fun _ => 0
  servoPins := fun i => ([13, 14, 25, 26, 27, 32] : List Nat).get i
  servoFullTurnMs := fun _ => 1000
  servoCurrentDeg := fun _ => 0
  servoCenterDeg := fun _ => 0
  servoPulseActive := fun _ => false
  servoPulseEndTime := fun _ => 0
  seqSteps := []
  seqStepIndex := 0
  seqRunning := false
  seqStepActive := false
  seqStepEndTime := 0

/-- Body of `ensureServoAttached` for an in-range index. -/
def ensureServoAttachedF (i : Fin 6) (s : SState) : SState :=
  if s.servoAttached i then s
  else { s with servoAttached := Function.update s.servoAttached i true }

/-- `ensureServoAttached` from the sketch (with its `index >= SERVO_COUNT`
guard). -/
def ensureServoAttached (index : Nat) (s : SState) : SState :=
  if h : index < 6 then ensureServoAttachedF ⟨index, h⟩ s else s

/-- Body of `setServoPower` for an in-range index: attach if needed, clamp,
store the power, cancel any armed pulse when the stored power is 0, and
write the mapped pulse width to the driver. -/
def setServoPowerF (i : Fin 6) (power : Int) (s : SState) : SState :=
  let s1 := ensureServoAttachedF i s
  let p := clampInt power (-100) 100
  let s2 := { s1 with currentPower := Function.update s1.currentPower i p }
  let s3 :=
    if p = 0 then
      { s2 with servoPulseActive := Function.update s2.servoPulseActive i false }
    else s2
  { s3 with lastPulseUs := Function.update s3.lastPulseUs i (powerToPulse p) }

/-- `setServoPower` from the sketch (with its range guard). -/
def setServoPower (index : Nat) (power : Int) (s : SState) : SState :=
  if h : index < 6 then setServoPowerF ⟨index, h⟩ power s else s

/-- Body of `stopServo` for an in-range index: detach if attached, force
power to 0, cancel any armed pulse. -/
def stopServoF (i : Fin 6) (s : SState) : SState :=
  let s1 :=
    if s.servoAttached i then
      { s with servoAttached := Function.update s.servoAttached i false }
    else s
  { s1 with currentPower := Function.update s1.currentPower i 0,
            servoPulseActive := Function.update s1.servoPulseActive i false }

/-- `stopServo` from the sketch (with its range guard). -/
def stopServo (index : Nat) (s : SState) : SState :=
  if h : index < 6 then stopServoF ⟨index, h⟩ s else s

/-- Body of `scheduleServoStop` for an in-range index: clamp the duration to
[0,30000]; a nonpositive duration clears the schedule, otherwise arm it with
`endTime = millis() + durationMs` in 32-bit arithmetic. -/
def scheduleServoStopF (i : Fin 6) (durationMs : Int) (now : Nat) (s : SState) : SState :=
  let d := clampInt durationMs 0 30000
  if d ≤ 0 then
    { s with servoPulseActive := Function.update s.servoPulseActive i false }
  else
    { s with servoPulseActive := Function.update s.servoPulseActive i true,
             servoPulseEndTime := Function.update s.servoPulseEndTime i (u32 (now + d.toNat)) }

/-- `scheduleServoStop` from the sketch (with its range guard). -/
def scheduleServoStop (index : Nat) (durationMs : Int) (now : Nat) (s : SState) : SState :=
  if h : index < 6 then scheduleServoStopF ⟨index, h⟩ durationMs now s else s

/-- One iteration of the `processServoPulseScheduler` loop for servo `i`:
if its schedule is active and has elapsed, deactivate it and call
`setServoPower(i, 0)`. -/
def pulseTickOne (now : Nat) (i : Fin 6) (s : SState) : SState :=
  if s.servoPulseActive i then
    if elapsed32 now (s.servoPulseEndTime i) then
      setServoPower i.val 0
        { s with servoPulseActive := Function.update s.servoPulseActive i false }
    else s
  else s

/-- `processServoPulseScheduler` from the sketch: the loop over the six
servos, in ascending index order, at one reading `now` of `millis()`. -/
def processServoPulseScheduler (now : Nat) (s : SState) : SState :=
  pulseTickOne now 5 (pulseTickOne now 4 (pulseTickOne now 3
    (pulseTickOne now 2 (pulseTickOne now 1 (pulseTickOne now 0 s)))))

/-- The `for` loop `setServoPower(i, 0)` over all six servos that both
`handleApiSeqRun` and the sequence-completion path of
`processSequenceScheduler` execute. -/
def forceAllServosZero (s : SState) : SState :=
  setServoPower 5 0 (setServoPower 4 0 (setServoPower 3 0
    (setServoPower 2 0 (setServoPower 1 0 (setServoPower 0 0 s)))))

/-- `processSequenceScheduler` from the sketch, at one reading `now` of
`millis()`: no-op unless running; when no step is active either finish the
run (force all servos to 0, clear `seqRunning`) or dispatch the step at
`seqStepIndex` (incrementing the index, applying its power, and arming
`seqStepEndTime` only for a positive duration); when a step is active,
clear `seqStepActive` once its end time has elapsed. -/
def processSequenceScheduler (now : Nat) (s : SState) : SState :=
  if s.seqRunning = false then s
  else if s.seqStepActive = false then
    if h : s.seqSteps.length ≤ s.seqStepIndex then
      { forceAllServosZero s with seqRunning := false }
    else
      let st := s.seqSteps.get ⟨s.seqStepIndex, lt_of_not_le h⟩
      let s1 := { s with seqStepIndex := s.seqStepIndex + 1 }
      let s2 := setServoPower st.servo st.power s1
      if 0 < st.durationMs then
        { s2 with seqStepActive := true, seqStepEndTime := u32 (now + st.durationMs) }
      else
        { s2 with seqStepActive := false, seqStepEndTime := u32 now }
  else
    if elapsed32 now s.seqStepEndTime then { s with seqStepActive := false } else s

/-- One pass of `loop()` as far as actuator state is concerned: the pulse
scheduler, then the sequence scheduler. -/
def loopTick (now : Nat) (s : SState) : SState :=
  processSequenceScheduler now (processServoPulseScheduler now s)

/-- Fold `loopTick` over a list of clock readings. -/
def ticksAt (ts : List Nat) (s : SState) : SState :=
  ts.foldl (fun s t => loopTick t s) s

/-! ### The sequence-file line format

`handleApiSeqRun` reads the sequence file line by line (`readStringUntil`).
Lines are modelled as `List Char`; the Arduino `String` operations the
handler uses (`trim`, `startsWith`, `indexOf`, `substring`, `toInt`) are
reproduced below. -/

/-- The character class of C `isspace`, which Arduino `String.trim` uses. -/
def isSpaceChar (c : Char) : Bool :=
  c = ' ' || c = '\t' || c = '\n' || c.toNat = 11 || c.toNat = 12 || c = '\r'

/-- Arduino `String.trim`: strip `isspace` characters from both ends. -/
def trimChars (cs : List Char) : List Char :=
  ((cs.dropWhile isSpaceChar).reverse.dropWhile isSpaceChar).reverse

/-- Arduino `String.indexOf(ch, fromIndex)`: first index `≥ start` holding
`c`, or `-1`. -/
def indexOfFrom (cs : List Char) (c : Char) (start : Nat) : Int :=
  match (cs.drop start).findIdx? (fun x => x = c) with
  | some k => Int.ofNat (start + k)
  | none => -1

/-- Arduino `String.substring(a, b)`: the characters at indices `[a, b)`. -/
def subChars (cs : List Char) (a b : Nat) : List Char :=
  (cs.take b).drop a

/-- Digit accumulator of C `atol`: consume leading decimal digits. -/
def readNatDigits : List Char → Nat → Nat
  | c :: cs, acc => if c.isDigit then readNatDigits cs (acc * 10 + (c.toNat - 48)) else acc
  | [], acc => acc

/-- Arduino `String.toInt` = C `atol`: skip leading whitespace, an optional
sign, then leading digits; 0 when no digits follow. -/
def atol (cs : List Char) : Int :=
  match cs.dropWhile isSpaceChar with
  | '-' :: rest => - Int.ofNat (readNatDigits rest 0)
  | '+' :: rest => Int.ofNat (readNatDigits rest 0)
  | other => Int.ofNat (readNatDigits other 0)

/-- The per-line body of the `handleApiSeqRun` read loop: `none` when the
line is consumed without committing a step (blank line, `#` comment, the
`invalid line` diagnostic when the two commas are not found, or the
`invalid servo index` diagnostic), otherwise the committed step with its
fields clamped. -/
def parseSeqLine (raw : List Char) : Option SeqStep :=
  let line := trimChars raw
  if line.length = 0 then none
  else if line.head? = some '#' then none
  else
    let c1 := indexOfFrom line ',' 0
    let c2 := indexOfFrom line ',' ((c1 + 1).toNat)
    if c1 < 0 ∨ c2 < 0 then none
    else
      let idx := atol (subChars line 0 c1.toNat)
      let pw := atol (subChars line (c1.toNat + 1) c2.toNat)
      let du := atol (line.drop (c2.toNat + 1))
      if idx < 0 ∨ 6 ≤ idx then none
      else some { servo := idx.toNat
                  power := clampInt pw (-100) 100
                  durationMs := (clampInt du 0 30000).toNat }

/-- The `handleApiSeqRun` read loop `while (f.available() && count < MAX_SEQ_STEPS)`:
the committed steps, given the file's lines and the running count. Skipped
lines consume input without raising the count; the loop stops reading as
soon as the count reaches the cap. -/
def parseSeqLinesAux : List (List Char) → Nat → List SeqStep
  | [], _ => []
  | l :: ls, count =>
    if count < MAX_SEQ_STEPS then
      match parseSeqLine l with
      | some st => st :: parseSeqLinesAux ls (count + 1)
      | none => parseSeqLinesAux ls count
    else []

/-- The steps committed from a sequence file's lines. -/
def parseSeqLines (fileLines : List (List Char)) : List SeqStep :=
  parseSeqLinesAux fileLines 0

/-- The state-mutating core of `handleApiSeqRun`, after the missing-name and
file-existence checks (which return before touching any state): cancel the
previous run and zero every servo, parse the file, then either reject with
`400 Sequence empty or invalid` (first component `false`) or commit the
steps and start the run (first component `true`). -/
def handleApiSeqRun (fileLines : List (List Char)) (now : Nat) (s : SState) : Bool × SState :=
  let s1 : SState :=
    { s with seqRunning := false, seqSteps := [], seqStepIndex := 0, seqStepActive := false }
  let s2 := forceAllServosZero s1
  let steps := parseSeqLines fileLines
  if steps.length = 0 then (false, s2)
  else (true, { s2 with seqSteps := steps, seqStepIndex := 0, seqStepActive := false,
                        seqRunning := true, seqStepEndTime := u32 now })

/-! ### Calibration model -/

/-- `computeDurationForAngle` from the sketch.  The sketch computes
`base = ft * (|angle| / 360)` and `scale = 100 / absPower` in 32-bit
floating point and truncates the product to `long`; here the arithmetic is
carried out exactly over `ℚ` (for the spec's test vectors every intermediate
value is exactly representable in 32-bit floating point, so the idealisation
agrees with the sketch there), then clamped to [10, 30000]. -/
def computeDurationForAngle (s : SState) (index : Nat) (angleDeg absPower : Int) : Int :=
  if h : index < 6 then
    if absPower ≤ 0 then 0
    else
      let absP := clampInt absPower 1 100
      let ft0 := s.servoFullTurnMs ⟨index, h⟩
      let ft := if ft0 ≤ 0 then 1000 else ft0
      let a : Int := |angleDeg|
      let dur : Int := ⌊(ft : ℚ) * ((a : ℚ) / 360) * (100 / (absP : ℚ))⌋
      clampInt dur 10 30000
  else 0

/-- `moveServoByAngle` from the sketch: no-op at angle 0; otherwise derive
the commanded power (default magnitude 50 when given power 0, sign follows
the angle), compute the duration, start the servo, arm the pulse scheduler,
and add the angle to the open-loop estimate. -/
def moveServoByAngle (index : Nat) (angleDeg power : Int) (now : Nat) (s : SState) : SState :=
  if h : index < 6 then
    if angleDeg = 0 then s
    else
      let absPower0 := |power|
      let absPower1 := if absPower0 = 0 then 50 else absPower0
      let absP := clampInt absPower1 1 100
      let cmdPower := if 0 < angleDeg then absP else -absP
      let dur := computeDurationForAngle s index angleDeg absP
      let s1 := setServoPower index cmdPower s
      let s2 := scheduleServoStop index dur now s1
      { s2 with servoCurrentDeg := (Function.update s2.servoCurrentDeg ⟨index, h⟩
            (s2.servoCurrentDeg ⟨index, h⟩ + angleDeg)) }
  else s

/-! ### The remaining public mutation entry points -/

/-- `handleApiStopAll`: `stopServo` on every servo. -/
def handleApiStopAll (s : SState) : SState :=
  stopServo 5 (stopServo 4 (stopServo 3 (stopServo 2 (stopServo 1 (stopServo 0 s)))))

/-- `handleApiCenterAll`: `setServoPower(i, 0)` on every servo. -/
def handleApiCenterAll (s : SState) : SState :=
  setServoPower 5 0 (setServoPower 4 0 (setServoPower 3 0
    (setServoPower 2 0 (setServoPower 1 0 (setServoPower 0 0 s)))))

/-- The state-mutating core of `handleApiSetPin`: after the index and GPIO
validation, `stopServo` then reassign the pin; a failed validation returns
before touching state. -/
def handleApiSetPin (index gpio : Nat) (s : SState) : SState :=
  if h : index < 6 then
    if isValidGpio gpio then
      let s1 := stopServo index s
      { s1 with servoPins := Function.update s1.servoPins ⟨index, h⟩ gpio }
    else s
  else s

/-- The public mutating operations named by the reachability claim. -/
inductive Op where
  | setPower (index : Nat) (power : Int)
  | stopOne (index : Nat)
  | stopAll
  | centerAll
  | setPin (index gpio : Nat)
  | moveByAngle (index : Nat) (angleDeg power : Int) (now : Nat)
  | seqRun (fileLines : List (List Char)) (now : Nat)
  | tick (now : Nat)

/-- Apply one public operation to the state. -/
def applyOp (s : SState) : Op → SState
  | .setPower index power => setServoPower index power s
  | .stopOne index => stopServo index s
  | .stopAll => handleApiStopAll s
  | .centerAll => handleApiCenterAll s
  | .setPin index gpio => handleApiSetPin index gpio s
  | .moveByAngle index angleDeg power now => moveServoByAngle index angleDeg power now s
  | .seqRun fileLines now => (handleApiSeqRun fileLines now s).2
  | .tick now => loopTick now s

/-- The state reached from boot by a list of public operations. -/
def runOps (ops : List Op) : SState :=
  ops.foldl applyOp initialState

/-- The spec's actuator invariant: a detached servo has power 0. -/
def AttachInv (s : SState) : Prop :=
  ∀ i : Fin 6, s.servoAttached i = false → s.currentPower i = 0

/-- The observable per-servo slice of the state. -/
structure ServoView where
  power : Int
  attached : Bool
  pulseUs : Int
  pulseActive : Bool
  pulseEndTime : Nat
deriving DecidableEq

/-- The slice of the state belonging to servo `i`. -/
def viewAt (i : Fin 6) (s : SState) : ServoView :=
  ⟨s.currentPower i, s.servoAttached i, s.lastPulseUs i,
   s.servoPulseActive i, s.servoPulseEndTime i⟩

/-! ### Frame and projection lemmas for the per-servo operations -/

theorem clampInt_idem (x lo hi : Int) (h : lo ≤ hi) :
    clampInt (clampInt x lo hi) lo hi = clampInt x lo hi := by
  unfold clampInt; split_ifs <;> omega

theorem viewAt_setServoPowerF_ne {i j : Fin 6} (h : i ≠ j) (p : Int) (s : SState) :
    viewAt i (setServoPowerF j p s) = viewAt i s := by
  unfold viewAt setServoPowerF ensureServoAttachedF
  dsimp only
  split_ifs <;> simp [Function.update_noteq h]

theorem setServoPowerF_power (i : Fin 6) (p : Int) (s : SState) :
    (setServoPowerF i p s).currentPower i = clampInt p (-100) 100 := by
  unfold setServoPowerF ensureServoAttachedF
  dsimp only
  split_ifs <;> simp

theorem setServoPowerF_attached (i : Fin 6) (p : Int) (s : SState) :
    (setServoPowerF i p s).servoAttached i = true := by
  unfold setServoPowerF ensureServoAttachedF
  dsimp only
  split_ifs with h <;> simp_all

theorem setServoPowerF_pulseUs (i : Fin 6) (p : Int) (s : SState) :
    (setServoPowerF i p s).lastPulseUs i = powerToPulse p := by
  unfold setServoPowerF ensureServoAttachedF powerToPulse
  dsimp only
  split_ifs <;> simp [clampInt_idem]

theorem setServoPowerF_pulseActive_zero (i : Fin 6) (p : Int) (s : SState)
    (h : clampInt p (-100) 100 = 0) :
    (setServoPowerF i p s).servoPulseActive i = false := by
  unfold setServoPowerF ensureServoAttachedF
  dsimp only
  split_ifs <;> simp_all

theorem setServoPowerF_pulseActive_nonzero (i : Fin 6) (p : Int) (s : SState)
    (h : clampInt p (-100) 100 ≠ 0) :
    (setServoPowerF i p s).servoPulseActive i = s.servoPulseActive i := by
  unfold setServoPowerF ensureServoAttachedF
  dsimp only
  split_ifs <;> simp_all

theorem setServoPowerF_pulseEndTime (i j : Fin 6) (p : Int) (s : SState) :
    (setServoPowerF j p s).servoPulseEndTime i = s.servoPulseEndTime i := by
  unfold setServoPowerF ensureServoAttachedF
  dsimp only
  split_ifs <;> rfl

theorem setServoPower_eq (i : Fin 6) (p : Int) (s : SState) :
    setServoPower i.val p s = setServoPowerF i p s := by
  unfold setServoPower
  rw [dif_pos i.isLt]

theorem setServoPower_eq_mk {index : Nat} (h : index < 6) (p : Int) (s : SState) :
    setServoPower index p s = setServoPowerF ⟨index, h⟩ p s := by
  unfold setServoPower
  rw [dif_pos h]

theorem viewAt_stopServoF_ne {i j : Fin 6} (h : i ≠ j) (s : SState) :
    viewAt i (stopServoF j s) = viewAt i s := by
  unfold viewAt stopServoF
  dsimp only
  split_ifs <;> simp [Function.update_noteq h]

theorem stopServoF_self (i : Fin 6) (s : SState) :
    (stopServoF i s).servoAttached i = false ∧ (stopServoF i s).currentPower i = 0 ∧
      (stopServoF i s).servoPulseActive i = false := by
  unfold stopServoF
  dsimp only
  split_ifs <;> simp_all

theorem stopServo_eq_mk {index : Nat} (h : index < 6) (s : SState) :
    stopServo index s = stopServoF ⟨index, h⟩ s := by
  unfold stopServo
  rw [dif_pos h]

theorem viewAt_scheduleServoStopF_ne {i j : Fin 6} (h : i ≠ j) (d : Int) (now : Nat)
    (s : SState) : viewAt i (scheduleServoStopF j d now s) = viewAt i s := by
  unfold viewAt scheduleServoStopF
  dsimp only
  split_ifs <;> simp [Function.update_noteq h]

theorem scheduleServoStopF_power (i j : Fin 6) (d : Int) (now : Nat) (s : SState) :
    (scheduleServoStopF j d now s).currentPower i = s.currentPower i ∧
      (scheduleServoStopF j d now s).servoAttached i = s.servoAttached i := by
  unfold scheduleServoStopF
  dsimp only
  split_ifs <;> simp

theorem scheduleServoStopF_armed (i : Fin 6) (d : Int) (now : Nat) (s : SState)
    (h0 : 0 < d) (h1 : d ≤ 30000) :
    (scheduleServoStopF i d now s).servoPulseActive i = true ∧
      (scheduleServoStopF i d now s).servoPulseEndTime i = u32 (now + d.toNat) := by
  have hc : clampInt d 0 30000 = d := by unfold clampInt; split_ifs <;> omega
  unfold scheduleServoStopF
  dsimp only
  rw [hc]
  rw [if_neg (by omega)]
  simp

/-! ### The pulse scheduler, servo by servo -/

theorem viewAt_setServoPowerF_zero (i : Fin 6) (s : SState) :
    viewAt i (setServoPowerF i 0 s) =
      ⟨0, true, powerToPulse 0, false, s.servoPulseEndTime i⟩ := by
  unfold viewAt
  rw [setServoPowerF_power, setServoPowerF_attached, setServoPowerF_pulseUs,
    setServoPowerF_pulseActive_zero _ _ _ (by decide), setServoPowerF_pulseEndTime]
  norm_num [clampInt]

theorem viewAt_pulseTickOne_ne (now : Nat) {i j : Fin 6} (h : i ≠ j) (s : SState) :
    viewAt i (pulseTickOne now j s) = viewAt i s := by
  unfold pulseTickOne
  split_ifs with h1 h2
  · rw [setServoPower_eq, viewAt_setServoPowerF_ne h]
    unfold viewAt
    simp [Function.update_noteq h]
  · rfl
  · rfl

theorem viewAt_pulseTickOne_congr (now : Nat) (i : Fin 6) (s1 s2 : SState)
    (h : viewAt i s1 = viewAt i s2) :
    viewAt i (pulseTickOne now i s1) = viewAt i (pulseTickOne now i s2) := by
  have hp : s1.servoPulseActive i = s2.servoPulseActive i :=
    congrArg ServoView.pulseActive h
  have ht : s1.servoPulseEndTime i = s2.servoPulseEndTime i :=
    congrArg ServoView.pulseEndTime h
  unfold pulseTickOne
  simp only [hp, ht]
  split_ifs with h1 h2
  · rw [setServoPower_eq, setServoPower_eq, viewAt_setServoPowerF_zero,
      viewAt_setServoPowerF_zero]
    simp [ht]
  · exact h
  · exact h

theorem viewAt_processServoPulseScheduler (now : Nat) (i : Fin 6) (s : SState) :
    viewAt i (processServoPulseScheduler now s) = viewAt i (pulseTickOne now i s) := by
  unfold processServoPulseScheduler
  fin_cases i
  · rw [viewAt_pulseTickOne_ne now (by decide), viewAt_pulseTickOne_ne now (by decide),
      viewAt_pulseTickOne_ne now (by decide), viewAt_pulseTickOne_ne now (by decide),
      viewAt_pulseTickOne_ne now (by decide)]
    rfl
  · rw [viewAt_pulseTickOne_ne now (by decide), viewAt_pulseTickOne_ne now (by decide),
      viewAt_pulseTickOne_ne now (by decide), viewAt_pulseTickOne_ne now (by decide)]
    exact viewAt_pulseTickOne_congr now _ _ _
      (by rw [viewAt_pulseTickOne_ne now (by decide)])
  · rw [viewAt_pulseTickOne_ne now (by decide), viewAt_pulseTickOne_ne now (by decide),
      viewAt_pulseTickOne_ne now (by decide)]
    exact viewAt_pulseTickOne_congr now _ _ _
      (by rw [viewAt_pulseTickOne_ne now (by decide), viewAt_pulseTickOne_ne now (by decide)])
  · rw [viewAt_pulseTickOne_ne now (by decide), viewAt_pulseTickOne_ne now (by decide)]
    exact viewAt_pulseTickOne_congr now _ _ _
      (by rw [viewAt_pulseTickOne_ne now (by decide), viewAt_pulseTickOne_ne now (by decide),
        viewAt_pulseTickOne_ne now (by decide)])
  · rw [viewAt_pulseTickOne_ne now (by decide)]
    exact viewAt_pulseTickOne_congr now _ _ _
      (by rw [viewAt_pulseTickOne_ne now (by decide), viewAt_pulseTickOne_ne now (by decide),
        viewAt_pulseTickOne_ne now (by decide), viewAt_pulseTickOne_ne now (by decide)])
  · exact viewAt_pulseTickOne_congr now _ _ _
      (by rw [viewAt_pulseTickOne_ne now (by decide), viewAt_pulseTickOne_ne now (by decide),
        viewAt_pulseTickOne_ne now (by decide), viewAt_pulseTickOne_ne now (by decide),
        viewAt_pulseTickOne_ne now (by decide)])

/-- `forceAllServosZero` with the (statically satisfied) range guards
discharged. -/
theorem forceAllServosZero_F (s : SState) :
    forceAllServosZero s =
      setServoPowerF ⟨5, by decide⟩ 0 (setServoPowerF ⟨4, by decide⟩ 0
        (setServoPowerF ⟨3, by decide⟩ 0 (setServoPowerF ⟨2, by decide⟩ 0
          (setServoPowerF ⟨1, by decide⟩ 0 (setServoPowerF ⟨0, by decide⟩ 0 s))))) := rfl

theorem viewAt_forceAllServosZero (i : Fin 6) (s : SState) :
    viewAt i (forceAllServosZero s) =
      ⟨0, true, powerToPulse 0, false, s.servoPulseEndTime i⟩ := by
  rw [forceAllServosZero_F]
  fin_cases i
  · rw [viewAt_setServoPowerF_ne (by decide), viewAt_setServoPowerF_ne (by decide),
      viewAt_setServoPowerF_ne (by decide), viewAt_setServoPowerF_ne (by decide),
      viewAt_setServoPowerF_ne (by decide), viewAt_setServoPowerF_zero]
  · rw [viewAt_setServoPowerF_ne (by decide), viewAt_setServoPowerF_ne (by decide),
      viewAt_setServoPowerF_ne (by decide), viewAt_setServoPowerF_ne (by decide),
      viewAt_setServoPowerF_zero, setServoPowerF_pulseEndTime]
  · rw [viewAt_setServoPowerF_ne (by decide), viewAt_setServoPowerF_ne (by decide),
      viewAt_setServoPowerF_ne (by decide), viewAt_setServoPowerF_zero,
      setServoPowerF_pulseEndTime, setServoPowerF_pulseEndTime]
  · rw [viewAt_setServoPowerF_ne (by decide), viewAt_setServoPowerF_ne (by decide),
      viewAt_setServoPowerF_zero, setServoPowerF_pulseEndTime,
      setServoPowerF_pulseEndTime, setServoPowerF_pulseEndTime]
  · rw [viewAt_setServoPowerF_ne (by decide), viewAt_setServoPowerF_zero,
      setServoPowerF_pulseEndTime, setServoPowerF_pulseEndTime,
      setServoPowerF_pulseEndTime, setServoPowerF_pulseEndTime]
  · rw [viewAt_setServoPowerF_zero, setServoPowerF_pulseEndTime,
      setServoPowerF_pulseEndTime, setServoPowerF_pulseEndTime,
      setServoPowerF_pulseEndTime, setServoPowerF_pulseEndTime]

/-! ### The sequence-engine fields are untouched by the per-servo operations -/

/-- The sequence-engine slice of the state. -/
def seqView (s : SState) : List SeqStep × Nat × Bool × Bool × Nat :=
  (s.seqSteps, s.seqStepIndex, s.seqRunning, s.seqStepActive, s.seqStepEndTime)

theorem seqView_setServoPowerF (i : Fin 6) (p : Int) (s : SState) :
    seqView (setServoPowerF i p s) = seqView s := by
  unfold seqView setServoPowerF ensureServoAttachedF
  dsimp only
  split_ifs <;> rfl

theorem seqView_setServoPower (index : Nat) (p : Int) (s : SState) :
    seqView (setServoPower index p s) = seqView s := by
  unfold setServoPower
  split
  · exact seqView_setServoPowerF _ _ _
  · rfl

theorem seqView_stopServoF (i : Fin 6) (s : SState) :
    seqView (stopServoF i s) = seqView s := by
  unfold seqView stopServoF
  dsimp only
  split_ifs <;> rfl

theorem seqView_scheduleServoStopF (i : Fin 6) (d : Int) (now : Nat) (s : SState) :
    seqView (scheduleServoStopF i d now s) = seqView s := by
  unfold seqView scheduleServoStopF
  dsimp only
  split_ifs <;> rfl

theorem seqView_pulseTickOne (now : Nat) (i : Fin 6) (s : SState) :
    seqView (pulseTickOne now i s) = seqView s := by
  unfold pulseTickOne
  split_ifs
  · rw [seqView_setServoPower]
    rfl
  · rfl
  · rfl

theorem seqView_processServoPulseScheduler (now : Nat) (s : SState) :
    seqView (processServoPulseScheduler now s) = seqView s := by
  unfold processServoPulseScheduler
  rw [seqView_pulseTickOne, seqView_pulseTickOne, seqView_pulseTickOne,
    seqView_pulseTickOne, seqView_pulseTickOne, seqView_pulseTickOne]

theorem seqView_forceAllServosZero (s : SState) :
    seqView (forceAllServosZero s) = seqView s := by
  unfold forceAllServosZero
  rw [seqView_setServoPower, seqView_setServoPower, seqView_setServoPower,
    seqView_setServoPower, seqView_setServoPower, seqView_setServoPower]

/-! ### Wraparound arithmetic -/

theorem elapsed32_before {t0 D e : Nat} (hD : D ≤ 30000) (he : e < D) :
    elapsed32 (t0 + e) (u32 (t0 + D)) = false := by
  simp only [elapsed32, u32, U32MOD, decide_eq_false_iff_not, not_lt]
  omega

theorem elapsed32_reached {t0 D e : Nat} (hDe : D ≤ e) (hwin : e - D < 2147483648) :
    elapsed32 (t0 + e) (u32 (t0 + D)) = true := by
  simp only [elapsed32, u32, U32MOD, decide_eq_true_eq]
  omega

/-! ### Preservation of the attach/power invariant -/

theorem attachInv_initial : AttachInv initialState := by
  intro i _
  rfl

theorem attachInv_setServoPowerF (i : Fin 6) (p : Int) {s : SState} (h : AttachInv s) :
    AttachInv (setServoPowerF i p s) := by
  intro j hj
  by_cases hij : j = i
  · subst hij
    rw [setServoPowerF_attached] at hj
    cases hj
  · have hv := viewAt_setServoPowerF_ne hij p s
    have h2 : (setServoPowerF i p s).currentPower j = s.currentPower j :=
      congrArg ServoView.power hv
    have h1 : (setServoPowerF i p s).servoAttached j = s.servoAttached j :=
      congrArg ServoView.attached hv
    rw [h1] at hj
    rw [h2]
    exact h j hj

theorem attachInv_setServoPower (index : Nat) (p : Int) {s : SState} (h : AttachInv s) :
    AttachInv (setServoPower index p s) := by
  unfold setServoPower
  split
  · exact attachInv_setServoPowerF _ _ h
  · exact h

theorem attachInv_stopServoF (i : Fin 6) {s : SState} (h : AttachInv s) :
    AttachInv (stopServoF i s) := by
  intro j hj
  by_cases hij : j = i
  · subst hij
    exact (stopServoF_self j s).2.1
  · have hv := viewAt_stopServoF_ne hij s
    have h2 : (stopServoF i s).currentPower j = s.currentPower j :=
      congrArg ServoView.power hv
    have h1 : (stopServoF i s).servoAttached j = s.servoAttached j :=
      congrArg ServoView.attached hv
    rw [h1] at hj
    rw [h2]
    exact h j hj

theorem attachInv_stopServo (index : Nat) {s : SState} (h : AttachInv s) :
    AttachInv (stopServo index s) := by
  unfold stopServo
  split
  · exact attachInv_stopServoF _ h
  · exact h

theorem attachInv_scheduleServoStopF (i : Fin 6) (d : Int) (now : Nat) {s : SState}
    (h : AttachInv s) : AttachInv (scheduleServoStopF i d now s) := by
  intro j hj
  have hp := scheduleServoStopF_power j i d now s
  rw [hp.2] at hj
  rw [hp.1]
  exact h j hj

theorem attachInv_scheduleServoStop (index : Nat) (d : Int) (now : Nat) {s : SState}
    (h : AttachInv s) : AttachInv (scheduleServoStop index d now s) := by
  unfold scheduleServoStop
  split
  · exact attachInv_scheduleServoStopF _ _ _ h
  · exact h

theorem attachInv_pulseTickOne (now : Nat) (i : Fin 6) {s : SState} (h : AttachInv s) :
    AttachInv (pulseTickOne now i s) := by
  unfold pulseTickOne
  split_ifs
  · exact attachInv_setServoPower _ _ (fun j hj => h j hj)
  · exact h
  · exact h

theorem attachInv_processServoPulseScheduler (now : Nat) {s : SState} (h : AttachInv s) :
    AttachInv (processServoPulseScheduler now s) := by
  unfold processServoPulseScheduler
  exact attachInv_pulseTickOne _ _ (attachInv_pulseTickOne _ _ (attachInv_pulseTickOne _ _
    (attachInv_pulseTickOne _ _ (attachInv_pulseTickOne _ _ (attachInv_pulseTickOne _ _ h)))))

theorem attachInv_forceAllServosZero {s : SState} (h : AttachInv s) :
    AttachInv (forceAllServosZero s) := by
  unfold forceAllServosZero
  exact attachInv_setServoPower _ _ (attachInv_setServoPower _ _ (attachInv_setServoPower _ _
    (attachInv_setServoPower _ _ (attachInv_setServoPower _ _ (attachInv_setServoPower _ _ h)))))

theorem attachInv_handleApiSeqRun (fileLines : List (List Char)) (now : Nat) {s : SState}
    (h : AttachInv s) : AttachInv (handleApiSeqRun fileLines now s).2 := by
  intro j hj
  unfold handleApiSeqRun
  dsimp only
  split_ifs
  · exact congrArg ServoView.power (viewAt_forceAllServosZero j _)
  · exact congrArg ServoView.power (viewAt_forceAllServosZero j _)

theorem attachInv_processSequenceScheduler (now : Nat) {s : SState} (h : AttachInv s) :
    AttachInv (processSequenceScheduler now s) := by
  unfold processSequenceScheduler
  dsimp only
  split_ifs
  · exact h
  · intro j hj
    exact congrArg ServoView.power (viewAt_forceAllServosZero j _)
  · intro j hj
    have h1 : AttachInv { s with seqStepIndex := s.seqStepIndex + 1 } := fun k hk => h k hk
    exact attachInv_setServoPower _ _ h1 j hj
  · intro j hj
    have h1 : AttachInv { s with seqStepIndex := s.seqStepIndex + 1 } := fun k hk => h k hk
    exact attachInv_setServoPower _ _ h1 j hj
  · exact h
  · exact h

theorem attachInv_loopTick (now : Nat) {s : SState} (h : AttachInv s) :
    AttachInv (loopTick now s) :=
  attachInv_processSequenceScheduler now (attachInv_processServoPulseScheduler now h)

theorem attachInv_moveServoByAngle (index : Nat) (angleDeg power : Int) (now : Nat)
    {s : SState} (h : AttachInv s) : AttachInv (moveServoByAngle index angleDeg power now s) := by
  unfold moveServoByAngle
  dsimp only
  split_ifs <;>
    first
      | exact h
      | (intro j hj
         exact attachInv_scheduleServoStop _ _ _ (attachInv_setServoPower _ _ h) j hj)

theorem attachInv_handleApiSetPin (index gpio : Nat) {s : SState} (h : AttachInv s) :
    AttachInv (handleApiSetPin index gpio s) := by
  unfold handleApiSetPin
  dsimp only
  split_ifs
  · exact fun j hj => attachInv_stopServo _ (fun k hk => h k hk) j hj
  · exact h
  · exact h

theorem attachInv_applyOp (op : Op) {s : SState} (h : AttachInv s) :
    AttachInv (applyOp s op) := by
  cases op with
  | setPower index power => exact attachInv_setServoPower _ _ h
  | stopOne index => exact attachInv_stopServo _ h
  | stopAll =>
    show AttachInv (handleApiStopAll s)
    unfold handleApiStopAll
    exact attachInv_stopServo _ (attachInv_stopServo _ (attachInv_stopServo _
      (attachInv_stopServo _ (attachInv_stopServo _ (attachInv_stopServo _ h)))))
  | centerAll =>
    show AttachInv (handleApiCenterAll s)
    unfold handleApiCenterAll
    exact attachInv_setServoPower _ _ (attachInv_setServoPower _ _ (attachInv_setServoPower _ _
      (attachInv_setServoPower _ _ (attachInv_setServoPower _ _ (attachInv_setServoPower _ _ h)))))
  | setPin index gpio => exact attachInv_handleApiSetPin _ _ h
  | moveByAngle index angleDeg power now => exact attachInv_moveServoByAngle _ _ _ _ h
  | seqRun fileLines now => exact attachInv_handleApiSeqRun _ _ h
  | tick now => exact attachInv_loopTick _ h

theorem attachInv_foldl (ops : List Op) : ∀ {s : SState}, AttachInv s →
    AttachInv (ops.foldl applyOp s) := by
  induction ops with
  | nil => exact fun h => h
  | cons op rest ih =>
    intro s h
    rw [List.foldl_cons]
    exact ih (attachInv_applyOp op h)

theorem attachInv_runOps (ops : List Op) : AttachInv (runOps ops) :=
  attachInv_foldl ops attachInv_initial

/-! ### More helpers: idempotence of stop, single-servo tick behavior -/

theorem stopServoF_idem (i : Fin 6) (s : SState) :
    stopServoF i (stopServoF i s) = stopServoF i s := by
  by_cases hA : s.servoAttached i = true <;>
    simp [stopServoF, hA, Function.update_idem, Function.update_same]

theorem scheduleServoStop_eq_mk {index : Nat} (h : index < 6) (d : Int) (now : Nat)
    (s : SState) : scheduleServoStop index d now s = scheduleServoStopF ⟨index, h⟩ d now s := by
  unfold scheduleServoStop
  rw [dif_pos h]

theorem pulseTickOne_inactive (now : Nat) (i : Fin 6) {s : SState}
    (h : s.servoPulseActive i = false) : pulseTickOne now i s = s := by
  unfold pulseTickOne
  rw [h]
  simp

theorem pulseTickOne_pending (now : Nat) (i : Fin 6) {s : SState}
    (ha : s.servoPulseActive i = true) (he : elapsed32 now (s.servoPulseEndTime i) = false) :
    pulseTickOne now i s = s := by
  unfold pulseTickOne
  rw [ha, he]
  simp

theorem viewAt_pulseTickOne_fire (now : Nat) (i : Fin 6) {s : SState}
    (ha : s.servoPulseActive i = true) (he : elapsed32 now (s.servoPulseEndTime i) = true) :
    viewAt i (pulseTickOne now i s) = ⟨0, true, powerToPulse 0, false, s.servoPulseEndTime i⟩ := by
  unfold pulseTickOne
  rw [ha, he]
  simp only [if_true]
  rw [setServoPower_eq, viewAt_setServoPowerF_zero]

/-! ## The claims -/

/-- **C1 (counterexample).** The claim "every rejected operation leaves all
actuator and sequence state unchanged" fails: running `/api/seq_run` on an
existing but empty sequence file is rejected with `400 Sequence empty or
invalid`, yet it has already zeroed the actuators.  Concretely, from the
state where actuator 0 runs at power 50, the rejected call leaves actuator 0
at power 0. -/
theorem C1_counterexample :
    (handleApiSeqRun [] 7 (setServoPower 0 50 initialState)).1 = false ∧
    (setServoPower 0 50 initialState).currentPower ⟨0, by decide⟩ = 50 ∧
    (handleApiSeqRun [] 7 (setServoPower 0 50 initialState)).2.currentPower ⟨0, by decide⟩ = 0 :=
  by decide

/-- **C2.** In every state reachable from the initial state by any sequence
of the public operations (setPower, stop, stopAll, centerAll, setPin,
moveByAngle, sequence load/run, scheduler ticks), a detached actuator has
power 0. -/
theorem C2_attached_false_implies_power_zero (ops : List Op) (i : Nat) (hi : i < 6)
    (h : (runOps ops).servoAttached ⟨i, hi⟩ = false) :
    (runOps ops).currentPower ⟨i, hi⟩ = 0 :=
  attachInv_runOps ops ⟨i, hi⟩ h

/-- Witness for C2 at the operation list `[setPower 0 80, stop 0]`. -/
theorem C2_witness :
    (0 : Nat) < 6 ∧
    (runOps [Op.setPower 0 80, Op.stopOne 0]).servoAttached ⟨0, by decide⟩ = false ∧
    (runOps [Op.setPower 0 80, Op.stopOne 0]).currentPower ⟨0, by decide⟩ = 0 :=
  ⟨by decide, by decide,
    C2_attached_false_implies_power_zero [Op.setPower 0 80, Op.stopOne 0] 0 (by decide)
      (by decide)⟩

/-- **C3.** After `scheduleServoStop(i, D)` at time `t0` with
`0 < D ≤ 30000`: a scheduler pass at a time strictly before `t0 + D` leaves
`power(i)` unchanged (and the schedule pending); the first pass at or after
`t0 + D` (within the signed 32-bit window) sets `power(i)` to 0, deactivates
the schedule and leaves the actuator attached; any later pass changes
nothing about actuator `i`.  All times run through the wraparound-safe
32-bit comparison `elapsed32`, so `t0` is arbitrary. -/
theorem C3_pulse_auto_revert (s : SState) (index t0 D e : Nat) (h : index < 6)
    (hD0 : 0 < D) (hD : D ≤ 30000) :
    (e < D →
      (processServoPulseScheduler (t0 + e)
        (scheduleServoStop index ((D : Int)) t0 s)).currentPower ⟨index, h⟩ =
          s.currentPower ⟨index, h⟩ ∧
      (processServoPulseScheduler (t0 + e)
        (scheduleServoStop index ((D : Int)) t0 s)).servoPulseActive ⟨index, h⟩ = true) ∧
    (D ≤ e → e - D < 2147483648 →
      (processServoPulseScheduler (t0 + e)
        (scheduleServoStop index ((D : Int)) t0 s)).currentPower ⟨index, h⟩ = 0 ∧
      (processServoPulseScheduler (t0 + e)
        (scheduleServoStop index ((D : Int)) t0 s)).servoPulseActive ⟨index, h⟩ = false ∧
      (processServoPulseScheduler (t0 + e)
        (scheduleServoStop index ((D : Int)) t0 s)).servoAttached ⟨index, h⟩ = true ∧
      ∀ t1 : Nat,
        viewAt ⟨index, h⟩ (processServoPulseScheduler t1 (processServoPulseScheduler (t0 + e)
          (scheduleServoStop index ((D : Int)) t0 s))) =
        viewAt ⟨index, h⟩ (processServoPulseScheduler (t0 + e)
          (scheduleServoStop index ((D : Int)) t0 s))) := by
  set i : Fin 6 := ⟨index, h⟩ with hi
  have harm : scheduleServoStop index ((D : Int)) t0 s = scheduleServoStopF i ((D : Int)) t0 s :=
    scheduleServoStop_eq_mk h _ _ _
  have harmed := scheduleServoStopF_armed i ((D : Int)) t0 s
    (by exact_mod_cast hD0) (by exact_mod_cast hD)
  rw [show ((D : Int)).toNat = D from by omega] at harmed
  have hfr := scheduleServoStopF_power i i ((D : Int)) t0 s
  set armed := scheduleServoStopF i ((D : Int)) t0 s with harmdef
  have hview : viewAt i (processServoPulseScheduler (t0 + e) armed) =
      viewAt i (pulseTickOne (t0 + e) i armed) :=
    viewAt_processServoPulseScheduler (t0 + e) i armed
  rw [harm]
  constructor
  · intro he
    have hne : elapsed32 (t0 + e) (armed.servoPulseEndTime i) = false := by
      rw [harmed.2]
      exact elapsed32_before hD he
    have hstay : pulseTickOne (t0 + e) i armed = armed :=
      pulseTickOne_pending _ _ harmed.1 hne
    rw [hstay] at hview
    constructor
    · have := congrArg ServoView.power hview
      simp only [viewAt] at this
      rw [this, hfr.1]
    · have := congrArg ServoView.pulseActive hview
      simp only [viewAt] at this
      rw [this, harmed.1]
  · intro hDe hwin
    have hel : elapsed32 (t0 + e) (armed.servoPulseEndTime i) = true := by
      rw [harmed.2]
      exact elapsed32_reached hDe hwin
    have hfire : viewAt i (pulseTickOne (t0 + e) i armed) =
        ⟨0, true, powerToPulse 0, false, armed.servoPulseEndTime i⟩ :=
      viewAt_pulseTickOne_fire _ _ harmed.1 hel
    rw [hfire] at hview
    refine ⟨congrArg ServoView.power hview, congrArg ServoView.pulseActive hview,
      congrArg ServoView.attached hview, ?_⟩
    intro t1
    have hoff : (processServoPulseScheduler (t0 + e) armed).servoPulseActive i = false :=
      congrArg ServoView.pulseActive hview
    have h2 : viewAt i (processServoPulseScheduler t1 (processServoPulseScheduler (t0 + e) armed)) =
        viewAt i (pulseTickOne t1 i (processServoPulseScheduler (t0 + e) armed)) :=
      viewAt_processServoPulseScheduler t1 i _
    rw [pulseTickOne_inactive t1 i hoff] at h2
    exact h2

/-- Witness for C3: arm servo 0 for 50 ms at t0 = 100 and look at the pass
at t0 + 49 (nothing happens) and at t0 + 50 (auto-revert fires). -/
theorem C3_witness :
    ((0 : Nat) < 6 ∧ 0 < 50 ∧ 50 ≤ 30000) ∧
    ((49 < 50 →
      (processServoPulseScheduler 149
        (scheduleServoStop 0 (((50 : Nat) : Int)) 100 initialState)).currentPower ⟨0, by decide⟩ =
          initialState.currentPower ⟨0, by decide⟩ ∧
      (processServoPulseScheduler 149
        (scheduleServoStop 0 (((50 : Nat) : Int)) 100 initialState)).servoPulseActive ⟨0, by decide⟩ = true) ∧
    (50 ≤ 49 → 49 - 50 < 2147483648 →
      (processServoPulseScheduler 149
        (scheduleServoStop 0 (((50 : Nat) : Int)) 100 initialState)).currentPower ⟨0, by decide⟩ = 0 ∧
      (processServoPulseScheduler 149
        (scheduleServoStop 0 (((50 : Nat) : Int)) 100 initialState)).servoPulseActive ⟨0, by decide⟩ = false ∧
      (processServoPulseScheduler 149
        (scheduleServoStop 0 (((50 : Nat) : Int)) 100 initialState)).servoAttached ⟨0, by decide⟩ = true ∧
      ∀ t1 : Nat,
        viewAt ⟨0, by decide⟩ (processServoPulseScheduler t1 (processServoPulseScheduler 149
          (scheduleServoStop 0 (((50 : Nat) : Int)) 100 initialState))) =
        viewAt ⟨0, by decide⟩ (processServoPulseScheduler 149
          (scheduleServoStop 0 (((50 : Nat) : Int)) 100 initialState)))) :=
  ⟨⟨by decide, by decide, by decide⟩,
    C3_pulse_auto_revert initialState 0 100 50 49 (by decide) (by decide) (by decide)⟩

/-- **C6.** `setServoPower(i, p)` stores `clamp(p, -100, 100)`, leaves the
actuator attached for any `p`, writes the mapped pulse width to the driver,
and cancels the armed pulse schedule exactly when the resulting power is 0
(otherwise the schedule is untouched). -/
theorem C6_set_power (s : SState) (index : Nat) (h : index < 6) (p : Int) :
    (setServoPower index p s).currentPower ⟨index, h⟩ = clampInt p (-100) 100 ∧
    (setServoPower index p s).servoAttached ⟨index, h⟩ = true ∧
    (setServoPower index p s).lastPulseUs ⟨index, h⟩ = powerToPulse p ∧
    (clampInt p (-100) 100 = 0 →
      (setServoPower index p s).servoPulseActive ⟨index, h⟩ = false) ∧
    (clampInt p (-100) 100 ≠ 0 →
      (setServoPower index p s).servoPulseActive ⟨index, h⟩ = s.servoPulseActive ⟨index, h⟩) := by
  rw [setServoPower_eq_mk h]
  exact ⟨setServoPowerF_power _ _ _, setServoPowerF_attached _ _ _,
    setServoPowerF_pulseUs _ _ _,
    fun hz => setServoPowerF_pulseActive_zero _ _ _ hz,
    fun hz => setServoPowerF_pulseActive_nonzero _ _ _ hz⟩

/-- Witness for C6 at `setServoPower(0, 250)` (clamped to 100) from boot. -/
theorem C6_witness :
    (setServoPower 0 250 initialState).currentPower ⟨0, by decide⟩ = clampInt 250 (-100) 100 ∧
    (setServoPower 0 250 initialState).servoAttached ⟨0, by decide⟩ = true ∧
    (setServoPower 0 250 initialState).lastPulseUs ⟨0, by decide⟩ = powerToPulse 250 ∧
    (clampInt 250 (-100) 100 = 0 →
      (setServoPower 0 250 initialState).servoPulseActive ⟨0, by decide⟩ = false) ∧
    (clampInt 250 (-100) 100 ≠ 0 →
      (setServoPower 0 250 initialState).servoPulseActive ⟨0, by decide⟩ =
        initialState.servoPulseActive ⟨0, by decide⟩) :=
  C6_set_power initialState 0 (by decide) 250

/-- **C8.** From every prior state, `stopServo(i)` leaves actuator `i`
detached with power 0 and its pulse schedule cancelled, and a second
`stopServo(i)` produces exactly the same state (idempotence). -/
theorem C8_stop_invariant_and_idempotent (s : SState) (index : Nat) (h : index < 6) :
    (stopServo index s).servoAttached ⟨index, h⟩ = false ∧
    (stopServo index s).currentPower ⟨index, h⟩ = 0 ∧
    (stopServo index s).servoPulseActive ⟨index, h⟩ = false ∧
    stopServo index (stopServo index s) = stopServo index s := by
  rw [stopServo_eq_mk h, stopServo_eq_mk h]
  exact ⟨(stopServoF_self _ _).1, (stopServoF_self _ _).2.1, (stopServoF_self _ _).2.2,
    stopServoF_idem _ _⟩

/-- Witness for C8 at `stopServo(2)` from the state where actuator 2 runs at
power -60. -/
theorem C8_witness :
    (stopServo 2 (setServoPower 2 (-60) initialState)).servoAttached ⟨2, by decide⟩ = false ∧
    (stopServo 2 (setServoPower 2 (-60) initialState)).currentPower ⟨2, by decide⟩ = 0 ∧
    (stopServo 2 (setServoPower 2 (-60) initialState)).servoPulseActive ⟨2, by decide⟩ = false ∧
    stopServo 2 (stopServo 2 (setServoPower 2 (-60) initialState)) =
      stopServo 2 (setServoPower 2 (-60) initialState) :=
  C8_stop_invariant_and_idempotent (setServoPower 2 (-60) initialState) 2 (by decide)

/-! ### Sequence-engine helper corollaries -/

theorem forceAllServosZero_seqFields (s : SState) :
    (forceAllServosZero s).seqSteps = s.seqSteps ∧
    (forceAllServosZero s).seqStepIndex = s.seqStepIndex ∧
    (forceAllServosZero s).seqRunning = s.seqRunning ∧
    (forceAllServosZero s).seqStepActive = s.seqStepActive ∧
    (forceAllServosZero s).seqStepEndTime = s.seqStepEndTime := by
  have h := seqView_forceAllServosZero s
  simp only [seqView, Prod.mk.injEq] at h
  exact h

theorem setServoPower_seqFields (index : Nat) (p : Int) (s : SState) :
    (setServoPower index p s).seqSteps = s.seqSteps ∧
    (setServoPower index p s).seqStepIndex = s.seqStepIndex ∧
    (setServoPower index p s).seqRunning = s.seqRunning ∧
    (setServoPower index p s).seqStepActive = s.seqStepActive ∧
    (setServoPower index p s).seqStepEndTime = s.seqStepEndTime := by
  have h := seqView_setServoPower index p s
  simp only [seqView, Prod.mk.injEq] at h
  exact h

theorem setServoPowerF_currentPower_fun (i : Fin 6) (p : Int) (s1 s2 : SState)
    (hc : s1.currentPower = s2.currentPower) :
    (setServoPowerF i p s1).currentPower = (setServoPowerF i p s2).currentPower := by
  unfold setServoPowerF ensureServoAttachedF
  dsimp only
  split_ifs <;> simp [hc]

theorem setServoPower_currentPower_shift (index : Nat) (p : Int) (s : SState)
    (st : List SeqStep) (n : Nat) (r a : Bool) (t : Nat) :
    (setServoPower index p { s with seqSteps := st, seqStepIndex := n, seqRunning := r, seqStepActive := a, seqStepEndTime := t }).currentPower =
      (setServoPower index p s).currentPower := by
  by_cases h6 : index < 6
  · unfold setServoPower
    rw [dif_pos h6, dif_pos h6]
    exact setServoPowerF_currentPower_fun _ _ _ _ rfl
  · unfold setServoPower
    rw [dif_neg h6, dif_neg h6]

theorem scheduleServoStop_power_frame (index : Nat) (d : Int) (now : Nat) (s : SState)
    (j : Fin 6) : (scheduleServoStop index d now s).currentPower j = s.currentPower j := by
  unfold scheduleServoStop
  split
  · exact (scheduleServoStopF_power j _ d now s).1
  · rfl

theorem clampInt_of_mem (x lo hi : Int) (h1 : lo ≤ x) (h2 : x ≤ hi) :
    clampInt x lo hi = x := by
  unfold clampInt
  split_ifs <;> omega

theorem clampInt_bounds (x lo hi : Int) (h : lo ≤ hi) :
    lo ≤ clampInt x lo hi ∧ clampInt x lo hi ≤ hi := by
  unfold clampInt
  split_ifs <;> omega

theorem powerToPulse_zero : powerToPulse 0 = 1500 := by decide

/-! ### Parsing helper lemmas -/

theorem findIdx_eq_none_of_not_mem (c : Char) :
    ∀ (l : List Char), c ∉ l → l.findIdx? (fun x => x = c) = none := by
  intro l
  induction l with
  | nil => intro _; rfl
  | cons a rest ih =>
    intro h
    have ha : ¬ (a = c) := fun hac => h (hac ▸ List.mem_cons_self a rest)
    have hrest : c ∉ rest := fun hm => h (List.mem_cons_of_mem a hm)
    simp [List.findIdx?, ha, ih hrest]

theorem parseSeqLinesAux_length_le (ls : List (List Char)) :
    ∀ c : Nat, (parseSeqLinesAux ls c).length ≤ MAX_SEQ_STEPS - c := by
  induction ls with
  | nil =>
    intro c
    simp [parseSeqLinesAux]
  | cons l rest ih =>
    intro c
    unfold parseSeqLinesAux
    split_ifs with hc
    · cases hpl : parseSeqLine l with
      | some st =>
        dsimp only
        have := ih (c + 1)
        unfold MAX_SEQ_STEPS at hc this ⊢
        simp only [List.length_cons]
        omega
      | none =>
        dsimp only
        exact ih c
    · simp

theorem parseSeqLinesAux_skip (cs : List Char) (h : parseSeqLine cs = none) :
    ∀ (pre post : List (List Char)) (c : Nat),
      parseSeqLinesAux (pre ++ cs :: post) c = parseSeqLinesAux (pre ++ post) c := by
  intro pre
  induction pre with
  | nil =>
    intro post c
    simp only [List.nil_append]
    conv_lhs => unfold parseSeqLinesAux
    split_ifs with hc
    · rw [h]
    · cases post with
      | nil => rfl
      | cons q qs =>
        conv_rhs => unfold parseSeqLinesAux
        rw [if_neg hc]
  | cons l rest ih =>
    intro post c
    simp only [List.cons_append]
    conv_lhs => unfold parseSeqLinesAux
    conv_rhs => unfold parseSeqLinesAux
    split_ifs with hc
    · cases hpl : parseSeqLine l with
      | some st =>
        dsimp only
        rw [ih post (c + 1)]
      | none =>
        dsimp only
        exact ih post c
    · rfl

/-! ### Parse-skip characterisations -/

theorem parseSeqLine_blank {cs : List Char} (h : trimChars cs = []) :
    parseSeqLine cs = none := by
  unfold parseSeqLine
  dsimp only
  rw [h]
  simp

theorem parseSeqLine_comment {cs : List Char} (h : (trimChars cs).head? = some '#') :
    parseSeqLine cs = none := by
  unfold parseSeqLine
  dsimp only
  have hne : ¬ ((trimChars cs).length = 0) := by
    intro h0
    rw [List.length_eq_zero] at h0
    rw [h0] at h
    cases h
  rw [if_neg hne, if_pos h]

theorem parseSeqLine_no_comma {cs : List Char} (h : ',' ∉ trimChars cs) :
    parseSeqLine cs = none := by
  have hidx : indexOfFrom (trimChars cs) ',' 0 = -1 := by
    unfold indexOfFrom
    rw [List.drop_zero, findIdx_eq_none_of_not_mem _ _ h]
  unfold parseSeqLine
  dsimp only
  split_ifs with h1 h2 h3 h4
  · rfl
  · rfl
  · rfl
  · exact absurd (Or.inl (by rw [hidx]; decide)) h3
  · exact absurd (Or.inl (by rw [hidx]; decide)) h3

/-! ### The sequence-determinism demo -/

/-- The sequence file shown in the sketch's own header comment:
`0,50,1000`, `0,0,500`, `1,-30,1500`. -/
def seqDemoLines : List (List Char) :=
  [("0,50,1000").toList, ("0,0,500").toList, ("1,-30,1500").toList]

/-- The state right after `/api/seq_run` commits the demo file at t = 0. -/
def seqDemoStart : SState := (handleApiSeqRun seqDemoLines 0 initialState).2

/-- Clock readings driving the demo run to completion (two loop passes at
each step boundary, so the expiry pass is followed by the dispatch pass). -/
def seqDemoTimes : List Nat := [0, 999, 1000, 1000, 1499, 1500, 1500, 2999, 3000, 3000]

/-- **C5.** A `processSequenceScheduler` pass dispatches at most one step
(the step index grows by at most 1 and never decreases); a running step
whose end time has not elapsed leaves the state untouched; when no step is
active the pass dispatches exactly the step at `seqStepIndex` (applying its
power through `setServoPower`, arming the end time only for a positive
duration, and leaving `seqStepActive` false for a zero duration); and the
sketch's demo sequence `[(0,50,1000),(0,0,500),(1,-30,1500)]`, ticked
forward in time, holds actuator 0 at power 50 for [0,1000), at power 0 for
[1000,1500), then actuator 1 at -30 until 3000, after which `running` is
false and every actuator's power is 0. -/
theorem C5_sequence_determinism :
    (∀ (now : Nat) (s : SState),
      s.seqStepIndex ≤ (processSequenceScheduler now s).seqStepIndex ∧
      (processSequenceScheduler now s).seqStepIndex ≤ s.seqStepIndex + 1) ∧
    (∀ (now : Nat) (s : SState), s.seqRunning = true → s.seqStepActive = true →
      elapsed32 now s.seqStepEndTime = false → processSequenceScheduler now s = s) ∧
    (∀ (now : Nat) (s : SState), s.seqRunning = true → s.seqStepActive = false →
      ∀ (hlt : s.seqStepIndex < s.seqSteps.length),
      (processSequenceScheduler now s).seqStepIndex = s.seqStepIndex + 1 ∧
      (processSequenceScheduler now s).currentPower =
        (setServoPower (s.seqSteps.get ⟨s.seqStepIndex, hlt⟩).servo
          (s.seqSteps.get ⟨s.seqStepIndex, hlt⟩).power s).currentPower ∧
      ((s.seqSteps.get ⟨s.seqStepIndex, hlt⟩).durationMs = 0 →
        (processSequenceScheduler now s).seqStepActive = false) ∧
      (0 < (s.seqSteps.get ⟨s.seqStepIndex, hlt⟩).durationMs →
        (processSequenceScheduler now s).seqStepActive = true ∧
        (processSequenceScheduler now s).seqStepEndTime =
          u32 (now + (s.seqSteps.get ⟨s.seqStepIndex, hlt⟩).durationMs))) ∧
    ((handleApiSeqRun seqDemoLines 0 initialState).1 = true ∧
      seqDemoStart.seqSteps = [⟨0, 50, 1000⟩, ⟨0, 0, 500⟩, ⟨1, -30, 1500⟩] ∧
      (ticksAt [0] seqDemoStart).currentPower ⟨0, by decide⟩ = 50 ∧
      (ticksAt [0, 999] seqDemoStart).currentPower ⟨0, by decide⟩ = 50 ∧
      (ticksAt [0, 999, 1000, 1000] seqDemoStart).currentPower ⟨0, by decide⟩ = 0 ∧
      (ticksAt [0, 999, 1000, 1000, 1499] seqDemoStart).currentPower ⟨0, by decide⟩ = 0 ∧
      (ticksAt [0, 999, 1000, 1000, 1499, 1500, 1500] seqDemoStart).currentPower
        ⟨1, by decide⟩ = -30 ∧
      (ticksAt [0, 999, 1000, 1000, 1499, 1500, 1500, 2999] seqDemoStart).currentPower
        ⟨1, by decide⟩ = -30 ∧
      (ticksAt seqDemoTimes seqDemoStart).seqRunning = false ∧
      ∀ i : Fin 6, (ticksAt seqDemoTimes seqDemoStart).currentPower i = 0) := by
  refine ⟨?_, ?_, ?_, by decide⟩
  · intro now s
    unfold processSequenceScheduler
    dsimp only
    split_ifs with h1 h2 h3 h4
    · omega
    · dsimp only
      rw [(forceAllServosZero_seqFields _).2.1]
      omega
    · dsimp only
      rw [(setServoPower_seqFields _ _ _).2.1]
      dsimp only
      omega
    · dsimp only
      rw [(setServoPower_seqFields _ _ _).2.1]
      dsimp only
      omega
    · dsimp only
      omega
    · omega
  · intro now s hr ha hne
    unfold processSequenceScheduler
    rw [hr, ha, hne]
    simp
  · intro now s hr ha hlt
    have hnle : ¬ (s.seqSteps.length ≤ s.seqStepIndex) := not_le.mpr hlt
    unfold processSequenceScheduler
    rw [hr, ha]
    rw [if_neg (by simp), if_pos rfl, dif_neg hnle]
    dsimp only
    by_cases hd : 0 < (s.seqSteps.get ⟨s.seqStepIndex, hlt⟩).durationMs
    · rw [if_pos hd]
      refine ⟨?_, ?_, fun h0 => ?_, fun _ => ⟨rfl, rfl⟩⟩
      · dsimp only
        rw [(setServoPower_seqFields _ _ _).2.1]
      · dsimp only
        rw [setServoPower_currentPower_shift]
      · omega
    · rw [if_neg hd]
      refine ⟨?_, ?_, fun _ => rfl, fun h0 => absurd h0 hd⟩
      · dsimp only
        rw [(setServoPower_seqFields _ _ _).2.1]
      · dsimp only
        rw [setServoPower_currentPower_shift]

/-- Witness for C5: the first dispatch of the demo run at t = 0 applies
step 0 and arms its 1000 ms duration. -/
theorem C5_witness :
    (processSequenceScheduler 0 seqDemoStart).seqStepIndex = seqDemoStart.seqStepIndex + 1 ∧
    (processSequenceScheduler 0 seqDemoStart).currentPower =
      (setServoPower (seqDemoStart.seqSteps.get ⟨seqDemoStart.seqStepIndex, by decide⟩).servo
        (seqDemoStart.seqSteps.get ⟨seqDemoStart.seqStepIndex, by decide⟩).power
        seqDemoStart).currentPower ∧
    ((seqDemoStart.seqSteps.get ⟨seqDemoStart.seqStepIndex, by decide⟩).durationMs = 0 →
      (processSequenceScheduler 0 seqDemoStart).seqStepActive = false) ∧
    (0 < (seqDemoStart.seqSteps.get ⟨seqDemoStart.seqStepIndex, by decide⟩).durationMs →
      (processSequenceScheduler 0 seqDemoStart).seqStepActive = true ∧
      (processSequenceScheduler 0 seqDemoStart).seqStepEndTime =
        u32 (0 + (seqDemoStart.seqSteps.get ⟨seqDemoStart.seqStepIndex, by decide⟩).durationMs)) := by
  have h := C5_sequence_determinism
  exact h.2.2.1 0 seqDemoStart (by decide) (by decide) (by decide)

/-- **C1 (amended).** Rejections at the validation boundary happen before
any mutation, but the `Sequence empty or invalid` rejection of
`/api/seq_run` does not leave state unchanged: by the time it is signalled
the previous run has been cancelled and every actuator forced to power 0
(attaching it and cancelling its pulse schedule); no steps are committed
and no new run starts. -/
theorem C1_empty_reject_state (fileLines : List (List Char)) (now : Nat) (s : SState)
    (h : parseSeqLines fileLines = []) :
    (handleApiSeqRun fileLines now s).1 = false ∧
    (handleApiSeqRun fileLines now s).2 =
      forceAllServosZero { s with seqRunning := false, seqSteps := [], seqStepIndex := 0, seqStepActive := false } ∧
    (handleApiSeqRun fileLines now s).2.seqRunning = false ∧
    (handleApiSeqRun fileLines now s).2.seqSteps = [] ∧
    ∀ i : Fin 6, (handleApiSeqRun fileLines now s).2.currentPower i = 0 ∧
      (handleApiSeqRun fileLines now s).2.servoPulseActive i = false ∧
      (handleApiSeqRun fileLines now s).2.servoAttached i = true := by
  have hcond : (parseSeqLines fileLines).length = 0 := by rw [h]; rfl
  unfold handleApiSeqRun
  dsimp only
  rw [if_pos hcond]
  refine ⟨rfl, rfl, ?_, ?_, ?_⟩
  · dsimp only
    rw [(forceAllServosZero_seqFields _).2.2.1]
  · dsimp only
    rw [(forceAllServosZero_seqFields _).1]
  · intro i
    have hv := viewAt_forceAllServosZero i
      { s with seqRunning := false, seqSteps := [], seqStepIndex := 0, seqStepActive := false }
    exact ⟨congrArg ServoView.power hv, congrArg ServoView.pulseActive hv,
      congrArg ServoView.attached hv⟩

/-- Witness for the amended C1: the empty file rejected from boot. -/
theorem C1_witness :
    (handleApiSeqRun [] 3 initialState).1 = false ∧
    (handleApiSeqRun [] 3 initialState).2 =
      forceAllServosZero { initialState with seqRunning := false, seqSteps := [], seqStepIndex := 0, seqStepActive := false } ∧
    (handleApiSeqRun [] 3 initialState).2.seqRunning = false ∧
    (handleApiSeqRun [] 3 initialState).2.seqSteps = [] ∧
    ∀ i : Fin 6, (handleApiSeqRun [] 3 initialState).2.currentPower i = 0 ∧
      (handleApiSeqRun [] 3 initialState).2.servoPulseActive i = false ∧
      (handleApiSeqRun [] 3 initialState).2.servoAttached i = true :=
  C1_empty_reject_state [] 3 initialState rfl

/-- **C4 (counterexample).** A 257-line sequence file is not rejected as
over-capacity: reading stops at the 256-step cap, the run starts, and
exactly 256 steps are committed. -/
theorem C4_counterexample :
    (handleApiSeqRun (List.replicate 257 ("0,50,1000").toList) 0 initialState).1 = true ∧
    (handleApiSeqRun (List.replicate 257 ("0,50,1000").toList) 0 initialState).2.seqRunning = true ∧
    (handleApiSeqRun (List.replicate 257 ("0,50,1000").toList) 0 initialState).2.seqSteps.length = 256 := by
  decide

/-- **C4 (amended).** The committed step list never exceeds the 256-step
cap; `/api/seq_run` rejects (no run started, no steps committed) exactly
when the effective step list is empty; a nonempty list (even one truncated
at the cap) starts the run with exactly the parsed steps. -/
theorem C4_capacity (fileLines : List (List Char)) (now : Nat) (s : SState) :
    (parseSeqLines fileLines).length ≤ MAX_SEQ_STEPS ∧
    (parseSeqLines fileLines = [] →
      (handleApiSeqRun fileLines now s).1 = false ∧
      (handleApiSeqRun fileLines now s).2.seqRunning = false ∧
      (handleApiSeqRun fileLines now s).2.seqSteps = []) ∧
    (parseSeqLines fileLines ≠ [] →
      (handleApiSeqRun fileLines now s).1 = true ∧
      (handleApiSeqRun fileLines now s).2.seqRunning = true ∧
      (handleApiSeqRun fileLines now s).2.seqSteps = parseSeqLines fileLines) := by
  refine ⟨?_, ?_, ?_⟩
  · have h0 := parseSeqLinesAux_length_le fileLines 0
    unfold parseSeqLines
    omega
  · intro h
    have hcond : (parseSeqLines fileLines).length = 0 := by rw [h]; rfl
    unfold handleApiSeqRun
    dsimp only
    rw [if_pos hcond]
    refine ⟨rfl, ?_, ?_⟩
    · dsimp only
      rw [(forceAllServosZero_seqFields _).2.2.1]
    · dsimp only
      rw [(forceAllServosZero_seqFields _).1]
  · intro h
    have hcond : ¬ ((parseSeqLines fileLines).length = 0) := by
      intro h0
      exact h (List.length_eq_zero.mp h0)
    unfold handleApiSeqRun
    dsimp only
    rw [if_neg hcond]
    exact ⟨rfl, rfl, rfl⟩

/-- Witness for the amended C4: a one-line file starts a run with that
step. -/
theorem C4_witness :
    (handleApiSeqRun [("5,20,300").toList] 2 initialState).1 = true ∧
    (handleApiSeqRun [("5,20,300").toList] 2 initialState).2.seqRunning = true ∧
    (handleApiSeqRun [("5,20,300").toList] 2 initialState).2.seqSteps =
      parseSeqLines [("5,20,300").toList] :=
  (C4_capacity [("5,20,300").toList] 2 initialState).2.2 (by decide)

/-- **C7 (counterexample).** A comma-separated line with non-numeric fields
is not skipped: `abc,def,ghi` parses (via `atol` reading 0s) into the step
`(0, 0, 0)`, so the loaded list is not just the valid lines. -/
theorem C7_counterexample :
    parseSeqLines [("0,50,1000").toList, ("abc,def,ghi").toList, ("1,-30,1500").toList] =
      [⟨0, 50, 1000⟩, ⟨0, 0, 0⟩, ⟨1, -30, 1500⟩] ∧
    parseSeqLines [("0,50,1000").toList, ("abc,def,ghi").toList, ("1,-30,1500").toList] ≠
      [⟨0, 50, 1000⟩, ⟨1, -30, 1500⟩] := by
  decide

/-- **C7 (amended).** When loading a sequence file: blank lines and lines
whose first non-space character is `#` are ignored; a line in which the two
comma separators are not found, or whose leading field parses to an
out-of-range actuator index, is skipped without aborting the load (the rest
of the file parses as if the line were absent).  A comma-separated line
whose fields are non-numeric is however not skipped (`atol` reads 0).  A
step list with one comma-free unparsable line and one out-of-range line
among valid lines loads exactly the valid lines, in order. -/
theorem C7_line_skipping :
    (∀ cs : List Char, trimChars cs = [] → parseSeqLine cs = none) ∧
    (∀ cs : List Char, (trimChars cs).head? = some '#' → parseSeqLine cs = none) ∧
    (∀ cs : List Char, ',' ∉ trimChars cs → parseSeqLine cs = none) ∧
    (∀ (cs : List Char) (pre post : List (List Char)), parseSeqLine cs = none →
      parseSeqLines (pre ++ cs :: post) = parseSeqLines (pre ++ post)) ∧
    (parseSeqLines [("0,50,1000").toList, ("this line does not parse").toList,
        ("9,0,100").toList, ("1,-30,1500").toList] =
      [⟨0, 50, 1000⟩, ⟨1, -30, 1500⟩]) := by
  refine ⟨fun cs h => parseSeqLine_blank h, fun cs h => parseSeqLine_comment h,
    fun cs h => parseSeqLine_no_comma h,
    fun cs pre post h => parseSeqLinesAux_skip cs h pre post 0, by decide⟩

/-- Witness for the amended C7: dropping the comma-free line leaves the
parse of the remaining lines. -/
theorem C7_witness :
    parseSeqLine ("no commas here").toList = none ∧
    parseSeqLines [("0,50,1000").toList, ("no commas here").toList, ("1,-30,1500").toList] =
      parseSeqLines [("0,50,1000").toList, ("1,-30,1500").toList] := by
  have h := C7_line_skipping
  exact ⟨h.2.2.1 ("no commas here").toList (by decide),
    h.2.2.2.1 ("no commas here").toList [("0,50,1000").toList] [("1,-30,1500").toList]
      (h.2.2.1 ("no commas here").toList (by decide))⟩

/-- **C9.** With a valid calibration (`fullTurnMs > 0`) and
`absPower ∈ [1,100]`, `computeDurationForAngle` equals
`clamp(⌊fullTurnMs * (|angle|/360) * (100/absPower)⌋, 10, 30000)` (exact
rational arithmetic standing in for the sketch's 32-bit floats, which are
exact on the spec's test vectors); `moveServoByAngle` gives the commanded
power the sign of the angle and coerces a requested power of 0 to magnitude
50; with `fullTurnMs = 1000`, angle 180 at absPower 100 gives 500 ms and at
absPower 50 gives 1000 ms. -/
theorem C9_angle_conversion :
    (∀ (s : SState) (index : Nat) (h : index < 6) (angleDeg absPower : Int),
      0 < s.servoFullTurnMs ⟨index, h⟩ → 1 ≤ absPower → absPower ≤ 100 →
      computeDurationForAngle s index angleDeg absPower =
        clampInt ⌊(s.servoFullTurnMs ⟨index, h⟩ : ℚ) * ((|angleDeg| : ℚ) / 360) *
          (100 / (absPower : ℚ))⌋ 10 30000) ∧
    (∀ (s : SState) (index : Nat) (h : index < 6) (angleDeg power : Int) (now : Nat),
      angleDeg ≠ 0 →
      (0 < angleDeg → 0 < (moveServoByAngle index angleDeg power now s).currentPower ⟨index, h⟩) ∧
      (angleDeg < 0 → (moveServoByAngle index angleDeg power now s).currentPower ⟨index, h⟩ < 0) ∧
      (power = 0 →
        (moveServoByAngle index angleDeg power now s).currentPower ⟨index, h⟩ = 50 ∨
        (moveServoByAngle index angleDeg power now s).currentPower ⟨index, h⟩ = -50)) ∧
    (computeDurationForAngle initialState 0 180 100 = 500 ∧
      computeDurationForAngle initialState 0 180 50 = 1000) := by
  refine ⟨?_, ?_, ?_, ?_⟩
  · intro s index h angleDeg absPower hft h1 h2
    unfold computeDurationForAngle
    rw [dif_pos h]
    rw [if_neg (show ¬ (absPower ≤ 0) from by omega)]
    dsimp only
    rw [if_neg (show ¬ (s.servoFullTurnMs ⟨index, h⟩ ≤ 0) from by omega)]
    rw [clampInt_of_mem absPower 1 100 h1 h2, Int.cast_abs]
  · intro s index h angleDeg power now hne
    unfold moveServoByAngle
    rw [dif_pos h, if_neg hne]
    dsimp only
    have hb := clampInt_bounds (if |power| = 0 then 50 else |power|) 1 100 (by omega)
    rw [scheduleServoStop_power_frame, setServoPower_eq_mk h, setServoPowerF_power]
    by_cases hpos : 0 < angleDeg
    · rw [if_pos hpos, clampInt_of_mem _ _ _ (by omega) (by omega)]
      refine ⟨fun _ => by omega, fun hneg => absurd hpos (by omega), fun hp0 => ?_⟩
      rw [hp0]
      decide
    · rw [if_neg hpos, clampInt_of_mem _ _ _ (by omega) (by omega)]
      refine ⟨fun hp => absurd hp hpos, fun _ => by omega, fun hp0 => ?_⟩
      rw [hp0]
      decide
  · unfold computeDurationForAngle
    rw [dif_pos (show (0 : Nat) < 6 from by decide)]
    dsimp only
    rw [if_neg (show ¬ ((100 : Int) ≤ 0) from by decide)]
    show clampInt ⌊(((1000 : Int) : ℚ)) * (((|(180 : Int)| : Int) : ℚ) / 360) * (100 / ((clampInt 100 1 100 : Int) : ℚ))⌋ 10 30000 = 500
    rw [show clampInt 100 1 100 = 100 from by decide,
      show ((|(180 : Int)| : Int) : ℚ) = 180 from by norm_num,
      show (((1000 : Int)) : ℚ) = 1000 from by norm_num,
      show (((100 : Int)) : ℚ) = 100 from by norm_num]
    rw [show (1000 : ℚ) * (180 / 360) * (100 / 100) = ((500 : Int) : ℚ) from by norm_num]
    rw [Int.floor_intCast]
    decide
  · unfold computeDurationForAngle
    rw [dif_pos (show (0 : Nat) < 6 from by decide)]
    dsimp only
    rw [if_neg (show ¬ ((50 : Int) ≤ 0) from by decide)]
    show clampInt ⌊(((1000 : Int) : ℚ)) * (((|(180 : Int)| : Int) : ℚ) / 360) * (100 / ((clampInt 50 1 100 : Int) : ℚ))⌋ 10 30000 = 1000
    rw [show clampInt 50 1 100 = 50 from by decide,
      show ((|(180 : Int)| : Int) : ℚ) = 180 from by norm_num,
      show (((1000 : Int)) : ℚ) = 1000 from by norm_num,
      show (((50 : Int)) : ℚ) = 50 from by norm_num]
    rw [show (1000 : ℚ) * (180 / 360) * (100 / 50) = ((1000 : Int) : ℚ) from by norm_num]
    rw [Int.floor_intCast]
    decide

/-- Witness for C9: the spec's test vectors, from boot calibration. -/
theorem C9_witness :
    (computeDurationForAngle initialState 0 180 100 =
      clampInt ⌊(initialState.servoFullTurnMs ⟨0, by decide⟩ : ℚ) * ((|(180 : Int)| : ℚ) / 360) *
        (100 / ((100 : Int) : ℚ))⌋ 10 30000) ∧
    ((0 < (180 : Int) → 0 < (moveServoByAngle 0 180 0 77 initialState).currentPower ⟨0, by decide⟩) ∧
      ((180 : Int) < 0 → (moveServoByAngle 0 180 0 77 initialState).currentPower ⟨0, by decide⟩ < 0) ∧
      ((0 : Int) = 0 →
        (moveServoByAngle 0 180 0 77 initialState).currentPower ⟨0, by decide⟩ = 50 ∨
        (moveServoByAngle 0 180 0 77 initialState).currentPower ⟨0, by decide⟩ = -50)) := by
  have h := C9_angle_conversion
  exact ⟨h.1 initialState 0 (by decide) 180 100 (by decide) (by decide) (by decide),
    h.2.1 initialState 0 (by decide) 180 0 77 (by decide)⟩

/-- **C10.** Both the zero loop that `/api/seq_run` runs before its first
step dispatches and the end-of-run path of the sequence scheduler leave all
six actuators attached, at power 0, holding the neutral 1500 µs pulse — an
actuator that was detached (free) beforehand is attached afterwards. -/
theorem C10_seq_attaches_all (fileLines : List (List Char)) (now : Nat) (s : SState) :
    (∀ i : Fin 6,
      (handleApiSeqRun fileLines now s).2.servoAttached i = true ∧
      (handleApiSeqRun fileLines now s).2.currentPower i = 0 ∧
      (handleApiSeqRun fileLines now s).2.lastPulseUs i = 1500) ∧
    (s.seqRunning = true → s.seqStepActive = false → s.seqSteps.length ≤ s.seqStepIndex →
      (processSequenceScheduler now s).seqRunning = false ∧
      ∀ i : Fin 6,
        (processSequenceScheduler now s).servoAttached i = true ∧
        (processSequenceScheduler now s).currentPower i = 0 ∧
        (processSequenceScheduler now s).lastPulseUs i = 1500) := by
  constructor
  · intro i
    have hv := viewAt_forceAllServosZero i
      { s with seqRunning := false, seqSteps := [], seqStepIndex := 0, seqStepActive := false }
    unfold handleApiSeqRun
    dsimp only
    split_ifs
    · exact ⟨congrArg ServoView.attached hv, congrArg ServoView.power hv,
        (congrArg ServoView.pulseUs hv).trans powerToPulse_zero⟩
    · exact ⟨congrArg ServoView.attached hv, congrArg ServoView.power hv,
        (congrArg ServoView.pulseUs hv).trans powerToPulse_zero⟩
  · intro hr ha hle
    unfold processSequenceScheduler
    rw [hr, ha]
    rw [if_neg (by simp), if_pos rfl, dif_pos hle]
    refine ⟨rfl, ?_⟩
    intro i
    have hv := viewAt_forceAllServosZero i s
    exact ⟨congrArg ServoView.attached hv, congrArg ServoView.power hv,
      (congrArg ServoView.pulseUs hv).trans powerToPulse_zero⟩

/-- The demo state for the C10 witness: a one-step zero-duration run that
has dispatched its only step, so the next scheduler pass completes it. -/
def c10Demo : SState :=
  processSequenceScheduler 1 (handleApiSeqRun [("0,0,0").toList] 0 initialState).2

/-- Witness for C10: completing the one-step demo run leaves all six
actuators attached at power 0 on the neutral pulse. -/
theorem C10_witness :
    (processSequenceScheduler 9 c10Demo).seqRunning = false ∧
    ∀ i : Fin 6,
      (processSequenceScheduler 9 c10Demo).servoAttached i = true ∧
      (processSequenceScheduler 9 c10Demo).currentPower i = 0 ∧
      (processSequenceScheduler 9 c10Demo).lastPulseUs i = 1500 :=
  (C10_seq_attaches_all [] 9 c10Demo).2 (by decide) (by decide) (by decide)

end OttoBot
